import Mathlib

/-!
Shallow embedding of `src/hw0.js` (csc519-HW0-DevOps): a CLI tool that
provisions and destroys DigitalOcean droplets and AWS EC2 instances.

The polling in `src/hw0.js` is delegated to the `async-retry` npm dependency
(backed by the `retry` package).  Its documented semantics, embedded below:
the `retries` option is the number of retries AFTER the first attempt, so a
call with `retries: n` invokes the wrapped probe at most `n + 1` times; the
sleep before the i-th retry (0-based) is
`min(round(r * minTimeout * factor^i), maxTimeout)` where
`r = Math.random() + 1` is a fresh random multiplier in [1, 2) —
`async-retry` defaults `randomize` to true — and the remaining defaults are
`factor = 2` and `maxTimeout = Infinity`.

Remote effects (HTTP requests / SDK calls) are made explicit: each embedded
operation returns its result together with the list of remote calls it
issued, and responses are drawn from an explicit stub environment.
-/

namespace HW0

/-- Outcome of a single probe invocation inside a retry loop: the JS probe
either returns a value (ready) or throws (not ready / transport error). -/
inductive ProbeOutcome (α : Type) where
  | ready (v : α)
  | notReady
  deriving Repr, DecidableEq

/-- Core loop of the `async-retry` dependency: `fuel` attempts remain, `idx`
is the 0-based index of the next attempt.  Returns the ready value (if any)
together with the number of probe invocations performed. -/
def retryRun {α : Type} (probe : Nat → ProbeOutcome α) : Nat → Nat → Option α × Nat
  | 0, _ => (none, 0)
  | fuel + 1, idx =>
    match probe idx with
    | .ready v => (some v, 1)
    | .notReady =>
      let r := retryRun probe fuel (idx + 1)
      (r.1, r.2 + 1)

/-- `async-retry` with option `retries := n`: the probe runs at most `n + 1`
times (one initial attempt plus `n` retries).  A `none` result models the
loop rethrowing the last probe error (the `Exhausted` outcome). -/
def asyncRetry {α : Type} (probe : Nat → ProbeOutcome α) (retries : Nat) : Option α × Nat :=
  retryRun probe (retries + 1) 0

/-- The create-readiness poll of `provisionDigitalOceanDroplet`
(src/hw0.js lines 235-251): `retry(..., { retries: 10, minTimeout: 3000 })`. -/
def dropletCreatePoll {α : Type} (probe : Nat → ProbeOutcome α) : Option α × Nat :=
  asyncRetry probe 10

/-- The create-readiness poll of `provisionAWSInstance`
(src/hw0.js lines 276-289): `retry(..., { retries: 10, minTimeout: 3000 })`. -/
def awsCreatePoll {α : Type} (probe : Nat → ProbeOutcome α) : Option α × Nat :=
  asyncRetry probe 10

/-- The termination poll of `AWSProvider.deleteInstance`
(src/hw0.js lines 179-195): `retry(..., { retries: 50, minTimeout: 1000,
maxTimeout: 3000 })`. -/
def awsTerminationPoll {α : Type} (probe : Nat → ProbeOutcome α) : Option α × Nat :=
  asyncRetry probe 50

/-- JavaScript `Math.round` on a (nonnegative) rational: round half up. -/
def jsRound (x : ℚ) : ℤ := ⌊x + 1/2⌋

/-- Sleep (in milliseconds) before the `attempt`-th retry, as computed by
the `retry` package with `async-retry`'s default `randomize: true`:
`min(round(randomFactor * minTimeout * factor ^ attempt), maxTimeout)`,
where `randomFactor` stands for the draw `Math.random() + 1 ∈ [1, 2)`;
`maxTimeout = none` models the package default `Infinity`. -/
def createTimeout (randomFactor : ℚ) (minTimeout : Nat) (maxTimeout : Option Nat)
    (factor : Nat) (attempt : Nat) : ℤ :=
  let t := jsRound (randomFactor * (minTimeout * factor ^ attempt : Nat))
  match maxTimeout with
  | none => t
  | some m => min t (m : ℤ)

/-- Interval before the i-th retry of both create-readiness polls
(src/hw0.js lines 248-251 and 286-289): `minTimeout: 3000`, no `maxTimeout`,
defaults `factor = 2` and `randomize: true`; `r` is the random multiplier
drawn for this sleep. -/
def createPollInterval (r : ℚ) (i : Nat) : ℤ := createTimeout r 3000 none 2 i

/-- Interval before the i-th retry of the AWS termination poll
(src/hw0.js lines 191-195): `minTimeout: 1000`, `maxTimeout: 3000`,
defaults `factor = 2` and `randomize: true`; `r` is the random multiplier
drawn for this sleep. -/
def awsTerminationInterval (r : ℚ) (i : Nat) : ℤ := createTimeout r 1000 (some 3000) 2 i

/- ## Generic lemmas about the retry loop -/

theorem retryRun_neverReady {α : Type} (probe : Nat → ProbeOutcome α) :
    ∀ fuel idx, (∀ j, j < fuel → probe (idx + j) = .notReady) →
      retryRun probe fuel idx = (none, fuel) := by
  intro fuel
  induction fuel with
  | zero => intro idx _; rfl
  | succ f ih =>
    intro idx h
    have h0 : probe idx = .notReady := by
      have := h 0 (Nat.succ_pos f)
      simpa using this
    have hrest : retryRun probe f (idx + 1) = (none, f) := by
      apply ih
      intro j hj
      have := h (j + 1) (Nat.succ_lt_succ hj)
      calc probe (idx + 1 + j) = probe (idx + (j + 1)) := by ring_nf
        _ = .notReady := this
    simp [retryRun, h0, hrest]

theorem retryRun_firstReady {α : Type} (probe : Nat → ProbeOutcome α) (v : α) :
    ∀ fuel idx k, k < fuel → probe (idx + k) = .ready v →
      (∀ j, j < k → probe (idx + j) = .notReady) →
      retryRun probe fuel idx = (some v, k + 1) := by
  intro fuel
  induction fuel with
  | zero => intro idx k hk; exact absurd hk (Nat.not_lt_zero k)
  | succ f ih =>
    intro idx k hk hready hbefore
    cases k with
    | zero =>
      have h0 : probe idx = .ready v := by simpa using hready
      simp [retryRun, h0]
    | succ k' =>
      have h0 : probe idx = .notReady := by
        have := hbefore 0 (Nat.succ_pos k')
        simpa using this
      have hrest : retryRun probe f (idx + 1) = (some v, k' + 1) := by
        apply ih
        · exact Nat.lt_of_succ_lt_succ hk
        · calc probe (idx + 1 + k') = probe (idx + (k' + 1)) := by ring_nf
            _ = .ready v := hready
        · intro j hj
          have := hbefore (j + 1) (Nat.succ_lt_succ hj)
          calc probe (idx + 1 + j) = probe (idx + (j + 1)) := by ring_nf
            _ = .notReady := this
      simp [retryRun, h0, hrest]

theorem asyncRetry_neverReady {α : Type} (probe : Nat → ProbeOutcome α) (retries : Nat)
    (h : ∀ j, j < retries + 1 → probe j = .notReady) :
    asyncRetry probe retries = (none, retries + 1) := by
  unfold asyncRetry
  have := retryRun_neverReady probe (retries + 1) 0 (by simpa using h)
  simpa using this

theorem asyncRetry_firstReady {α : Type} (probe : Nat → ProbeOutcome α) (retries : Nat)
    (k : Nat) (v : α) (hk : k < retries + 1) (hready : probe k = .ready v)
    (hbefore : ∀ j, j < k → probe j = .notReady) :
    asyncRetry probe retries = (some v, k + 1) := by
  unfold asyncRetry
  have := retryRun_firstReady probe v (retries + 1) 0 k hk (by simpa using hready)
    (by simpa using hbefore)
  simpa using this

theorem retryRun_count_pos {α : Type} (probe : Nat → ProbeOutcome α) (fuel idx : Nat)
    (h : 0 < fuel) : 1 ≤ (retryRun probe fuel idx).2 := by
  cases fuel with
  | zero => exact absurd h (lt_irrefl 0)
  | succ f =>
    cases hp : probe idx with
    | ready v => simp [retryRun, hp]
    | notReady => simp [retryRun, hp]

/- ## Data model -/

/-- A JavaScript value used as an instance id: the CLI passes `argv.id`
through untyped, and the providers inspect `typeof id`. -/
inductive JSValue where
  | num (n : Int)
  | str (s : String)
  deriving Repr, DecidableEq

/-- `typeof id == "number"` on the embedded JS values. -/
def JSValue.isNumber : JSValue → Bool
  | .num _ => true
  | .str _ => false

/-- One entry of the DigitalOcean `/v2/account/keys` response body. -/
structure DOKey where
  id : Nat
  name : String
  deriving Repr, DecidableEq

/-- One entry of a droplet's `networks.v4` array. -/
structure DOV4Network where
  ip_address : String
  deriving Repr, DecidableEq

/-- The `networks` object of a droplet; `v4 = none` models a missing `v4`
field (JS `undefined`). -/
structure DropletNetworks where
  v4 : Option (List DOV4Network)
  deriving Repr, DecidableEq

/-- A DigitalOcean droplet as read from the API body (`body.droplet`);
`networks = none` models a missing `networks` field. -/
structure Droplet where
  id : Nat
  networks : Option DropletNetworks
  deriving Repr, DecidableEq

/-- Response of the droplet-create POST: status code and optional
`body.droplet`. -/
structure CreateResponse where
  statusCode : Nat
  droplet : Option Droplet
  deriving Repr, DecidableEq

/-- The JSON body `createDroplet` posts to `/v2/droplets`
(src/hw0.js lines 47-57). -/
structure DropletCreateBody where
  name : String
  region : String
  size : String
  image : String
  ssh_keys : List Nat
  backups : Bool
  ipv6 : Bool
  deriving Repr, DecidableEq

/-- Parameters of the EC2 `RunInstances` SDK call built by
`AWSProvider.createInstance` (src/hw0.js lines 121-127). -/
structure RunInstancesParams where
  imageId : String
  instanceType : String
  keyName : String
  minCount : Nat
  maxCount : Nat
  deriving Repr, DecidableEq

/-- An EC2 instance descriptor as read from `DescribeInstances`
(`Reservations[0].Instances[0]`); `publicIpAddress = none` models a missing
`PublicIpAddress` field. -/
structure AWSInstance where
  instanceId : String
  publicIpAddress : Option String
  deriving Repr, DecidableEq

/-- A remote call issued by the tool (HTTP request or SDK call), recorded
whether or not it succeeds at transport level. -/
inductive RemoteCall where
  | listKeys
  | createDropletCall (body : DropletCreateBody)
  | getDroplet (id : Nat)
  | deleteDropletCall (id : Int)
  | runInstances (params : RunInstancesParams)
  | createTags (resources : List String) (name : String)
  | describeInstances (id : JSValue)
  | terminateInstances (id : JSValue)
  deriving Repr, DecidableEq

/-- Stub DigitalOcean API: responses the remote side would return;
`none` models a transport-level failure (the `got` promise rejecting, which
the code catches into `undefined`). -/
structure DOEnv where
  keysResponse : Option (List DOKey)
  createResponse : Option CreateResponse
  infoSeq : Nat → Option Droplet
  deleteResponse : Option Nat

/-- Stub AWS SDK: `runId` is `Instances[0].InstanceId` of the `RunInstances`
response, `describeResult` the descriptor returned by `DescribeInstances`,
and `terminateStates i` the `TerminatingInstances[0].CurrentState.Name`
returned by the i-th `TerminateInstances` call (0 = the call before the
poll loop). -/
structure AWSEnv where
  runId : String
  describeResult : JSValue → AWSInstance
  terminateStates : Nat → String

/- ## DigitalOcean provider (class DigitalOceanProvider, src/hw0.js 10-106) -/

/-- Result of `DigitalOceanProvider.createDroplet`: a validation failure
returns `undefined` after logging; a missing SSH key is a thrown `Error`;
otherwise the (possibly transport-failed) HTTP response is returned. -/
inductive CreateDropletResult where
  | validationAborted
  | keyNotFound (name : String)
  | response (r : Option CreateResponse)
  deriving Repr, DecidableEq

/-- `DigitalOceanProvider.findSSHKeyPair` (src/hw0.js 26-37) reduced to its
lookup: given the keys response body, the id of the key whose `name`
matches, or `none` when the method would throw
`Unable to find SSH key pair`. -/
def findSSHKeyPair (keysResponse : Option (List DOKey)) (name : String) : Option Nat :=
  match keysResponse with
  | some keys => (keys.find? (fun k => k.name = name)).map (fun k => k.id)
  | none => none

/-- `DigitalOceanProvider.createDroplet` (src/hw0.js 39-74): validates the
four string parameters are non-empty, resolves the SSH key name via
`findSSHKeyPair` (one `listKeys` request), then posts the droplet-create
body.  Returns the result together with the remote calls issued. -/
def createDroplet (dropletName region imageName sshKeyPairName : String)
    (env : DOEnv) : CreateDropletResult × List RemoteCall :=
  if dropletName = "" ∨ region = "" ∨ imageName = "" ∨ sshKeyPairName = "" then
    (.validationAborted, [])
  else
    match findSSHKeyPair env.keysResponse sshKeyPairName with
    | none => (.keyNotFound sshKeyPairName, [.listKeys])
    | some sshKeyId =>
      let data : DropletCreateBody :=
        { name := dropletName, region := region, size := "512mb",
          image := imageName, ssh_keys := [sshKeyId], backups := false,
          ipv6 := false }
      (.response env.createResponse, [.listKeys, .createDropletCall data])

/-- Result of `DigitalOceanProvider.dropletInfo`: validation failure returns
`undefined`; otherwise the GET response (or `undefined` on transport
failure). -/
inductive DropletInfoResult where
  | validationAborted
  | response (r : Option Droplet)
  deriving Repr, DecidableEq

/-- `DigitalOceanProvider.dropletInfo` (src/hw0.js 76-83): rejects a
non-numeric id without any remote call, otherwise GETs the droplet. -/
def dropletInfo (id : JSValue) (env : DOEnv) (attempt : Nat) :
    DropletInfoResult × List RemoteCall :=
  match id with
  | .num n => (.response (env.infoSeq attempt), [.getDroplet n.toNat])
  | .str _ => (.validationAborted, [])

/-- Result of `DigitalOceanProvider.deleteDroplet`: validation failure and
transport failure both return silently; a received response completes with
its status code (logging on 204). -/
inductive DeleteDropletResult where
  | validationAborted
  | transportNoOp
  | completed (statusCode : Nat)
  deriving Repr, DecidableEq

/-- `DigitalOceanProvider.deleteDroplet` (src/hw0.js 85-105): rejects a
non-numeric id without any remote call; issues exactly one DELETE request;
a transport-level failure (network error or non-2xx, caught into
`undefined`) ends the method silently with no retry and no thrown error. -/
def deleteDroplet (id : JSValue) (env : DOEnv) : DeleteDropletResult × List RemoteCall :=
  match id with
  | .num n =>
    match env.deleteResponse with
    | none => (.transportNoOp, [.deleteDropletCall n])
    | some code => (.completed code, [.deleteDropletCall n])
  | .str _ => (.validationAborted, [])

/- ## AWS provider (class AWSProvider, src/hw0.js 108-199) -/

/-- `AWSProvider.instanceInfo` (src/hw0.js 152-161): no validation of any
kind; always issues one `DescribeInstances` call with the given id. -/
def instanceInfo (id : JSValue) (env : AWSEnv) : AWSInstance × List RemoteCall :=
  (env.describeResult id, [.describeInstances id])

/-- `AWSProvider.createInstance` (src/hw0.js 118-145): no validation of any
kind; builds the `RunInstances` parameters (note `region` is never used),
runs the instance, tags it with the name, and describes it. -/
def createInstance (name region imageName sshKeyPairName : String)
    (env : AWSEnv) : AWSInstance × List RemoteCall :=
  let instanceParams : RunInstancesParams :=
    { imageId := imageName, instanceType := "t2.micro",
      keyName := sshKeyPairName, minCount := 1, maxCount := 1 }
  let instanceId := env.runId
  let info := instanceInfo (.str instanceId) env
  (info.1, [.runInstances instanceParams, .createTags [instanceId] name] ++ info.2)

/-- States treated as terminal by `AWSProvider.deleteInstance`
(src/hw0.js line 183). -/
def terminalStates : List String := ["stopped", "terminated"]

/-- The probe of the termination poll (src/hw0.js 179-190): re-issues
`TerminateInstances` and succeeds when the reported
`TerminatingInstances[0].CurrentState.Name` is in `terminalStates`.
Attempt `i` observes the state of the `(i+1)`-th terminate call (call 0 is
the one issued before the loop). -/
def terminationProbe (env : AWSEnv) : Nat → ProbeOutcome String := fun i =>
  let currentState := env.terminateStates (i + 1)
  if terminalStates.contains currentState then .ready currentState else .notReady

/-- `AWSProvider.deleteInstance` (src/hw0.js 168-198): no validation;
issues one `TerminateInstances` call, then polls by issuing a further
`TerminateInstances` call per attempt until the reported state is in
`terminalStates` (retries 50).  `some` models normal completion (the
initial response is returned); `none` models the retry loop rethrowing
after exhaustion. -/
def deleteInstance (id : JSValue) (env : AWSEnv) : Option Unit × List RemoteCall :=
  let r := awsTerminationPoll (terminationProbe env)
  (r.1.map (fun _ => ()),
   .terminateInstances id :: List.replicate r.2 (.terminateInstances id))

/- ## Readiness probes of the create poll loops -/

/-- The body of the DigitalOcean create-readiness probe
(src/hw0.js 238-247): given `body.droplet` of the describe response (or
`none` when the response or its droplet is missing), returns the first
`networks.v4` ip address, or `none` when the probe would throw
`Droplet networking not ready`. -/
def dropletReadyIP (r : Option Droplet) : Option String :=
  match r with
  | some droplet =>
    match droplet.networks with
    | some networks =>
      match networks.v4 with
      | some (a :: _) => some a.ip_address
      | some [] => none
      | none => none
    | none => none
  | none => none

/-- The DigitalOcean create-readiness probe as a `ProbeOutcome`. -/
def dropletProbeStep (r : Option Droplet) : ProbeOutcome String :=
  match dropletReadyIP r with
  | some ip => .ready ip
  | none => .notReady

/-- The body of the AWS create-readiness probe (src/hw0.js 277-285):
`info.PublicIpAddress` when truthy (present and non-empty), else the probe
throws `Instance networking not ready`. -/
def awsReadyIP (info : AWSInstance) : Option String :=
  match info.publicIpAddress with
  | some ip => if ip = "" then none else some ip
  | none => none

/-- The AWS create-readiness probe as a `ProbeOutcome`. -/
def awsProbeStep (info : AWSInstance) : ProbeOutcome String :=
  match awsReadyIP info with
  | some ip => .ready ip
  | none => .notReady

/- ## Spec-level readiness predicate (section 4.2 of the spec) -/

/-- The IPv4 addresses a droplet descriptor carries: its `networks.v4`
entries. -/
def Droplet.v4Addresses (d : Droplet) : List String :=
  match d.networks with
  | some networks => (networks.v4.getD []).map (fun a => a.ip_address)
  | none => []

/-- Spec predicate: the droplet descriptor carries at least one assigned
public IPv4 address. -/
def dropletHasIPv4 (d : Droplet) : Bool :=
  !(d.v4Addresses.isEmpty)

/-- Spec predicate: the EC2 descriptor carries an assigned public IPv4
address (`PublicIpAddress` present and non-empty). -/
def awsHasPublicIPv4 (info : AWSInstance) : Bool :=
  match info.publicIpAddress with
  | some ip => !(ip = "")
  | none => false

/- ## Token validation and command wrappers (src/hw0.js 202-296) -/

/-- Outcome of a function that may call `process.exit`. -/
inductive ProcessOutcome (α : Type) where
  | exit (code : Nat)
  | ok (v : α)
  deriving Repr, DecidableEq

/-- `validateDigitalOceanToken` (src/hw0.js 207-218): reads
`NCSU_DOTOKEN`; a missing or empty (falsy) token prints a message and
calls `process.exit(1)`. -/
def validateDigitalOceanToken (envToken : Option String) : ProcessOutcome String :=
  match envToken with
  | none => .exit 1
  | some token => if token = "" then .exit 1 else .ok token

/-- How a process invocation of one command ends: `process.exit`, an
unhandled promise rejection, or normal completion. -/
inductive RunOutcome where
  | exited (code : Nat)
  | errored
  | finished
  deriving Repr, DecidableEq

/-- `provisionDigitalOceanDroplet` (src/hw0.js 220-253): validates the
token (exiting on failure before any provider call), creates the droplet
with region `nyc1`, image `ubuntu-19-10-x64` and SSH key name `csc519`,
and on a successful create polls `dropletInfo` until an IPv4 address is
assigned.  `name` stands for the generated `jwmanes2-<uuid>` name. -/
def provisionDigitalOceanDroplet (envToken : Option String) (name : String)
    (env : DOEnv) : RunOutcome × List RemoteCall :=
  match validateDigitalOceanToken envToken with
  | .exit code => (.exited code, [])
  | .ok _ =>
    let created := createDroplet name "nyc1" "ubuntu-19-10-x64" "csc519" env
    match created.1 with
    | .validationAborted => (.finished, created.2)
    | .keyNotFound _ => (.errored, created.2)
    | .response none => (.finished, created.2)
    | .response (some r) =>
      match r.droplet with
      | none => (.finished, created.2)
      | some droplet =>
        let poll := dropletCreatePoll (fun i => dropletProbeStep (env.infoSeq i))
        let trace := created.2 ++ List.replicate poll.2 (.getDroplet droplet.id)
        match poll.1 with
        | some _ => (.finished, trace)
        | none => (.errored, trace)

/-- `destroyDigitalOceanDroplet` (src/hw0.js 255-259): validates the token
(exiting on failure before any provider call), then calls `deleteDroplet`,
which never throws. -/
def destroyDigitalOceanDroplet (envToken : Option String) (id : JSValue)
    (env : DOEnv) : RunOutcome × List RemoteCall :=
  match validateDigitalOceanToken envToken with
  | .exit code => (.exited code, [])
  | .ok _ => (.finished, (deleteDroplet id env).2)

/-- `provisionAWSInstance` (src/hw0.js 261-290): creates the instance
(name `jwmanes2-<uuid>`, region `us-east-1`, a fixed AMI, key `csc519`),
then polls `instanceInfo` until a public IP is assigned.  The descriptor
polled at attempt `i` is `describeSeq i`. -/
def provisionAWSInstance (name : String) (env : AWSEnv)
    (describeSeq : Nat → AWSInstance) : RunOutcome × List RemoteCall :=
  let created := createInstance name "us-east-1" "ami-0b6b1f8f449568786" "csc519" env
  let instanceId := created.1.instanceId
  let poll := awsCreatePoll (fun i => awsProbeStep (describeSeq i))
  let trace := created.2 ++ List.replicate poll.2 (.describeInstances (.str instanceId))
  match poll.1 with
  | some _ => (.finished, trace)
  | none => (.errored, trace)

/- ## Stub environments used by concrete instances -/

/-- A stub DigitalOcean environment: one SSH key named `other-key`, all
HTTP responses failing at transport level. -/
def doStubEnv : DOEnv :=
  { keysResponse := some [⟨123, "other-key"⟩], createResponse := none,
    infoSeq := fun _ => none, deleteResponse := none }

/-- A stub AWS environment whose terminate calls never report a terminal
state. -/
def awsStubEnv : AWSEnv :=
  { runId := "i-0abc", describeResult := fun _ => ⟨"i-0abc", none⟩,
    terminateStates := fun _ => "shutting-down" }

/-- A stub AWS environment whose first polled terminate call reports
`terminated`. -/
def awsStubEnvTerm : AWSEnv :=
  { runId := "i-0abc", describeResult := fun _ => ⟨"i-0abc", none⟩,
    terminateStates := fun _ => "terminated" }

/- ## Claim theorems -/

/-- C1, counterexample: a probe that never becomes ready is invoked 11
times by the create poll (`retries: 10`) and 51 times by the AWS
termination poll (`retries: 50`), not the 10 and 50 times the claim
states. -/
theorem C1_counterexample :
    dropletCreatePoll (fun _ => (ProbeOutcome.notReady : ProbeOutcome String)) = (none, 11) ∧
    awsTerminationPoll (fun _ => (ProbeOutcome.notReady : ProbeOutcome String)) = (none, 51) ∧
    ¬ (dropletCreatePoll (fun _ => (ProbeOutcome.notReady : ProbeOutcome String))).2 = 10 ∧
    ¬ (awsTerminationPoll (fun _ => (ProbeOutcome.notReady : ProbeOutcome String))).2 = 50 := by
  decide

/-- C1 (amended): in every poll loop, if the probe sequence first becomes
ready on 0-based attempt `k` within the budget, the loop invokes the probe
exactly `k + 1` times and returns the ready value; if no probe is ever
ready, the loop invokes the probe exactly `retries + 1` times (11 for the
create polls, 51 for the AWS termination poll) and signals the exhaustion
error (`none`). -/
theorem C1_poll_budget {α : Type} (probe : Nat → ProbeOutcome α) (k : Nat) (v : α) :
    (k < 11 → probe k = .ready v → (∀ j, j < k → probe j = .notReady) →
      dropletCreatePoll probe = (some v, k + 1) ∧ awsCreatePoll probe = (some v, k + 1)) ∧
    (k < 51 → probe k = .ready v → (∀ j, j < k → probe j = .notReady) →
      awsTerminationPoll probe = (some v, k + 1)) ∧
    ((∀ i, i < 11 → probe i = .notReady) →
      dropletCreatePoll probe = (none, 11) ∧ awsCreatePoll probe = (none, 11)) ∧
    ((∀ i, i < 51 → probe i = .notReady) → awsTerminationPoll probe = (none, 51)) := by
  refine ⟨?_, ?_, ?_, ?_⟩
  · intro hk hready hbefore
    exact ⟨asyncRetry_firstReady probe 10 k v hk hready hbefore,
           asyncRetry_firstReady probe 10 k v hk hready hbefore⟩
  · intro hk hready hbefore
    exact asyncRetry_firstReady probe 50 k v hk hready hbefore
  · intro h
    exact ⟨asyncRetry_neverReady probe 10 h, asyncRetry_neverReady probe 10 h⟩
  · intro h
    exact asyncRetry_neverReady probe 50 h

/-- A probe that is first ready on 0-based attempt 2. -/
def readyAtTwo : Nat → ProbeOutcome Nat := fun i =>
  if i = 2 then .ready 7 else .notReady

theorem C1_poll_budget_witness :
    dropletCreatePoll readyAtTwo = (some 7, 3) ∧
    awsTerminationPoll (fun _ => (ProbeOutcome.notReady : ProbeOutcome Nat)) = (none, 51) := by
  constructor
  · exact ((C1_poll_budget readyAtTwo 2 7).1 (by decide) (by decide) (by decide)).1
  · exact (C1_poll_budget (fun _ => (ProbeOutcome.notReady : ProbeOutcome Nat)) 0 0).2.2.2
      (fun i _ => rfl)

theorem le_jsRound (x : ℚ) (a : ℤ) (h : (a : ℚ) ≤ x) : a ≤ jsRound x := by
  unfold jsRound
  apply Int.le_floor.mpr
  linarith

theorem jsRound_le (x : ℚ) (b : ℤ) (h : x < (b : ℚ) + 1/2) : jsRound x ≤ b := by
  unfold jsRound
  have hlt : ⌊x + 1/2⌋ < b + 1 := by
    apply Int.floor_lt.mpr
    push_cast
    linarith
  omega

theorem createPollInterval_bounds (r : ℚ) (h1 : 1 ≤ r) (h2 : r < 2) (i : Nat) :
    (3000 * 2 ^ i : ℤ) ≤ createPollInterval r i ∧
      createPollInterval r i ≤ 6000 * 2 ^ i := by
  have hq : ((3000 * 2 ^ i : Nat) : ℚ) = 3000 * 2 ^ i := by push_cast; ring
  have hpos : (0 : ℚ) < 3000 * 2 ^ i := by positivity
  constructor
  · show (3000 * 2 ^ i : ℤ) ≤ jsRound (r * ((3000 * 2 ^ i : Nat) : ℚ))
    apply le_jsRound
    rw [hq]
    push_cast
    nlinarith
  · show jsRound (r * ((3000 * 2 ^ i : Nat) : ℚ)) ≤ 6000 * 2 ^ i
    apply jsRound_le
    rw [hq]
    push_cast
    nlinarith

theorem awsTerminationInterval_bounds (r : ℚ) (h1 : 1 ≤ r) (i : Nat) :
    (1000 : ℤ) ≤ awsTerminationInterval r i ∧ awsTerminationInterval r i ≤ 3000 := by
  have hq : ((1000 * 2 ^ i : Nat) : ℚ) = 1000 * 2 ^ i := by push_cast; ring
  have hpow : (1 : ℚ) ≤ 2 ^ i := by
    have hn : (1 : ℕ) ≤ 2 ^ i := Nat.one_le_pow i 2 (by norm_num)
    exact_mod_cast hn
  constructor
  · show (1000 : ℤ) ≤ min (jsRound (r * ((1000 * 2 ^ i : Nat) : ℚ))) (3000 : ℤ)
    apply le_min
    · apply le_jsRound
      rw [hq]
      push_cast
      nlinarith [mul_nonneg (sub_nonneg.mpr h1) (sub_nonneg.mpr hpow)]
    · norm_num
  · show min (jsRound (r * ((1000 * 2 ^ i : Nat) : ℚ))) (3000 : ℤ) ≤ 3000
    exact min_le_right _ _

/-- C5, counterexample: with random multiplier 1 (the draw
`Math.random() + 1` at `Math.random() = 0`), the sleep before the second
create-poll retry is 6000 ms, not the fixed 3000 ms the claim states: the
create polls set no `maxTimeout`, so the `retry` package's default
exponential factor 2 doubles the base interval, and any other admissible
random multiplier only lengthens it. -/
theorem C5_counterexample :
    createPollInterval 1 1 = 6000 ∧ ¬ createPollInterval 1 1 = 3000 := by
  have h : createPollInterval 1 1 = 6000 := by
    show jsRound ((1 : ℚ) * ((3000 * 2 ^ 1 : Nat) : ℚ)) = 6000
    unfold jsRound
    rw [Int.floor_eq_iff]
    constructor <;> push_cast <;> norm_num
  exact ⟨h, by rw [h]; norm_num⟩

/-- C5 (amended): there is no fixed 3-second create-poll interval: with the
`retry` package's defaults `randomize: true` and `factor: 2` and no
`maxTimeout`, the sleep before the i-th create-poll retry is
`round(r * 3000 * 2 ^ i)` ms for a fresh random `r ∈ [1, 2)`, hence between
`3000 * 2 ^ i` and `6000 * 2 ^ i` ms — exponentially growing, and already
at least 6000 ms before the second retry; the AWS termination-poll
interval, capped by `maxTimeout: 3000`, is indeed always between 1 and 3
seconds. -/
theorem C5_backoff_intervals (r : ℚ) (h1 : 1 ≤ r) (h2 : r < 2) :
    (∀ i, (3000 * 2 ^ i : ℤ) ≤ createPollInterval r i ∧
      createPollInterval r i ≤ 6000 * 2 ^ i) ∧
    (∀ i, (1000 : ℤ) ≤ awsTerminationInterval r i ∧
      awsTerminationInterval r i ≤ 3000) ∧
    (6000 : ℤ) ≤ createPollInterval r 1 := by
  refine ⟨fun i => createPollInterval_bounds r h1 h2 i,
          fun i => awsTerminationInterval_bounds r h1 i, ?_⟩
  have h := (createPollInterval_bounds r h1 h2 1).1
  norm_num at h
  exact h

theorem C5_backoff_witness :
    (6000 : ℤ) ≤ createPollInterval (3/2) 1 := by
  exact (C5_backoff_intervals (3/2) (by norm_num) (by norm_num)).2.2

/- ## Helper lemmas for the readiness predicate -/

theorem dropletProbeStep_ready_iff (d : Droplet) :
    (∃ ip, dropletProbeStep (some d) = .ready ip) ↔ dropletHasIPv4 d = true := by
  obtain ⟨i, networks⟩ := d
  cases networks with
  | none =>
    simp [dropletProbeStep, dropletReadyIP, dropletHasIPv4, Droplet.v4Addresses]
  | some nw =>
    obtain ⟨v4⟩ := nw
    cases v4 with
    | none =>
      simp [dropletProbeStep, dropletReadyIP, dropletHasIPv4, Droplet.v4Addresses]
    | some l =>
      cases l with
      | nil =>
        simp [dropletProbeStep, dropletReadyIP, dropletHasIPv4, Droplet.v4Addresses]
      | cons a rest =>
        simp [dropletProbeStep, dropletReadyIP, dropletHasIPv4, Droplet.v4Addresses]

theorem awsProbeStep_ready_iff (info : AWSInstance) :
    (∃ ip, awsProbeStep info = .ready ip) ↔ awsHasPublicIPv4 info = true := by
  obtain ⟨i, pip⟩ := info
  cases pip with
  | none => simp [awsProbeStep, awsReadyIP, awsHasPublicIPv4]
  | some ip =>
    by_cases hip : ip = "" <;>
      simp [awsProbeStep, awsReadyIP, awsHasPublicIPv4, hip]

/-- C6: for every descriptor the create-readiness probe succeeds exactly
when the descriptor carries at least one assigned public IPv4 address
(DigitalOcean: a non-empty `networks.v4`; AWS: a truthy
`PublicIpAddress`), and a probe sequence of descriptors without any such
address never makes the create poll loop succeed. -/
theorem C6_readiness_predicate :
    (∀ d : Droplet,
      (∃ ip, dropletProbeStep (some d) = .ready ip) ↔ dropletHasIPv4 d = true) ∧
    (∀ info : AWSInstance,
      (∃ ip, awsProbeStep info = .ready ip) ↔ awsHasPublicIPv4 info = true) ∧
    (∀ infoSeq : Nat → Option Droplet,
      (∀ i d, infoSeq i = some d → dropletHasIPv4 d = false) →
      dropletCreatePoll (fun i => dropletProbeStep (infoSeq i)) = (none, 11)) ∧
    (∀ describeSeq : Nat → AWSInstance,
      (∀ i, awsHasPublicIPv4 (describeSeq i) = false) →
      awsCreatePoll (fun i => awsProbeStep (describeSeq i)) = (none, 11)) := by
  refine ⟨dropletProbeStep_ready_iff, awsProbeStep_ready_iff, ?_, ?_⟩
  · intro infoSeq h
    apply asyncRetry_neverReady
    intro j _
    cases hj : infoSeq j with
    | none => rfl
    | some d =>
      cases hs : dropletProbeStep (some d) with
      | ready ip =>
        have hd := (dropletProbeStep_ready_iff d).mp ⟨ip, hs⟩
        rw [h j d hj] at hd
        exact Bool.noConfusion hd
      | notReady => rfl
  · intro describeSeq h
    apply asyncRetry_neverReady
    intro j _
    cases hs : awsProbeStep (describeSeq j) with
    | ready ip =>
      have hd := (awsProbeStep_ready_iff (describeSeq j)).mp ⟨ip, hs⟩
      rw [h j] at hd
      exact Bool.noConfusion hd
    | notReady => rfl

theorem C6_witness :
    dropletCreatePoll (fun _ => dropletProbeStep none) = (none, 11) := by
  exact C6_readiness_predicate.2.2.1 (fun _ => none)
    (fun i d h => Option.noConfusion h)

/-- C2, counterexample: `AWSProvider.createInstance` performs no parameter
validation: with all four parameters empty it still issues `RunInstances`
(then `CreateTags` and `DescribeInstances`), so the claim fails for the
AWS client. -/
theorem C2_counterexample :
    (createInstance "" "" "" "" awsStubEnv).2 =
      [.runInstances ⟨"", "t2.micro", "", 1, 1⟩,
       .createTags ["i-0abc"] "",
       .describeInstances (.str "i-0abc")] ∧
    ¬ (createInstance "" "" "" "" awsStubEnv).2 = [] := by
  refine ⟨rfl, fun h => ?_⟩
  exact List.noConfusion h

/-- C2 (amended): with any empty string parameter the DigitalOcean
`createDroplet` issues zero remote calls and aborts with the validation
error; the AWS `createInstance` performs no validation and issues its
remote calls regardless. -/
theorem C2_empty_param_validation (name region image key : String) (doEnv : DOEnv)
    (awsEnv : AWSEnv) (h : name = "" ∨ region = "" ∨ image = "" ∨ key = "") :
    createDroplet name region image key doEnv = (.validationAborted, []) ∧
    (createInstance name region image key awsEnv).2 =
      [.runInstances ⟨image, "t2.micro", key, 1, 1⟩,
       .createTags [awsEnv.runId] name,
       .describeInstances (.str awsEnv.runId)] := by
  constructor
  · unfold createDroplet
    rw [if_pos h]
  · rfl

theorem C2_witness :
    createDroplet "" "nyc1" "ubuntu-19-10-x64" "csc519" doStubEnv =
      (.validationAborted, []) := by
  exact (C2_empty_param_validation "" "nyc1" "ubuntu-19-10-x64" "csc519" doStubEnv
    awsStubEnv (Or.inl rfl)).1

/-- C3: a DigitalOcean create with non-empty parameters whose SSH key name
matches no key in the account key list throws the not-found error after
issuing only the key-list request (zero droplet-create requests), and for
every environment the key-list request is the first remote call the
operation issues. -/
theorem C3_key_resolution (name region image key : String) (env : DOEnv)
    (keys : List DOKey)
    (hname : ¬ name = "") (hregion : ¬ region = "") (himage : ¬ image = "")
    (hkey : ¬ key = "")
    (hlist : env.keysResponse = some keys)
    (hmiss : ∀ k ∈ keys, ¬ k.name = key) :
    createDroplet name region image key env = (.keyNotFound key, [.listKeys]) ∧
    (∀ env2 : DOEnv,
      ((createDroplet name region image key env2).2).head? = some .listKeys ∨
      (createDroplet name region image key env2).2 = []) := by
  have hcond : ¬ (name = "" ∨ region = "" ∨ image = "" ∨ key = "") := by
    simp [hname, hregion, himage, hkey]
  constructor
  · have hfind : findSSHKeyPair env.keysResponse key = none := by
      rw [hlist]
      unfold findSSHKeyPair
      rw [Option.map_eq_none']
      rw [List.find?_eq_none]
      intro x hx
      simpa using hmiss x hx
    unfold createDroplet
    rw [if_neg hcond, hfind]
  · intro env2
    left
    unfold createDroplet
    rw [if_neg hcond]
    cases findSSHKeyPair env2.keysResponse key with
    | none => rfl
    | some i => rfl

theorem C3_witness :
    createDroplet "test-1" "nyc1" "ubuntu-19-10-x64" "csc519" doStubEnv =
      (.keyNotFound "csc519", [.listKeys]) := by
  exact (C3_key_resolution "test-1" "nyc1" "ubuntu-19-10-x64" "csc519" doStubEnv
    [⟨123, "other-key"⟩] (by decide) (by decide) (by decide) (by decide) rfl
    (by decide)).1

/-- C4, counterexample: `AWSProvider.instanceInfo` performs no id-type
validation: a numeric id (not the string type AWS expects) still issues
the `DescribeInstances` remote call, so the claim fails for the AWS
client. -/
theorem C4_counterexample :
    (instanceInfo (.num 5) awsStubEnv).2 = [.describeInstances (.num 5)] ∧
    ¬ (instanceInfo (.num 5) awsStubEnv).2 = [] := by
  refine ⟨rfl, fun h => ?_⟩
  exact List.noConfusion h

/-- C4 (amended): DigitalOcean `dropletInfo` and `deleteDroplet` reject a
non-numeric id with the validation error and issue no remote call; the AWS
client performs no id-type validation: for an id of any type
(`awsId`, in particular a wrongly-typed numeric one), `instanceInfo`
issues its `DescribeInstances` call and `deleteInstance` starts by issuing
its `TerminateInstances` call. -/
theorem C4_id_validation (id awsId : JSValue) (env : DOEnv) (awsEnv : AWSEnv)
    (attempt : Nat) (h : id.isNumber = false) :
    dropletInfo id env attempt = (.validationAborted, []) ∧
    deleteDroplet id env = (.validationAborted, []) ∧
    (instanceInfo awsId awsEnv).2 = [.describeInstances awsId] ∧
    (deleteInstance awsId awsEnv).2.head? = some (.terminateInstances awsId) := by
  cases id with
  | num n => exact absurd h (by simp [JSValue.isNumber])
  | str s => exact ⟨rfl, rfl, rfl, rfl⟩

theorem C4_witness :
    dropletInfo (.str "not-a-number") doStubEnv 0 = (.validationAborted, []) ∧
    (instanceInfo (.num 5) awsStubEnv).2 = [.describeInstances (.num 5)] ∧
    (deleteInstance (.num 5) awsStubEnv).2.head? =
      some (.terminateInstances (.num 5)) := by
  have h := C4_id_validation (.str "not-a-number") (.num 5) doStubEnv awsStubEnv 0 rfl
  exact ⟨h.1, h.2.2.1, h.2.2.2⟩

/-- C7: when the `NCSU_DOTOKEN` environment variable is absent or empty,
both DigitalOcean commands terminate the process with exit code 1 and
issue no provider call. -/
theorem C7_token_gate (envToken : Option String) (name : String) (id : JSValue)
    (env : DOEnv) (h : envToken = none ∨ envToken = some "") :
    provisionDigitalOceanDroplet envToken name env = (.exited 1, []) ∧
    destroyDigitalOceanDroplet envToken id env = (.exited 1, []) := by
  have hv : validateDigitalOceanToken envToken = .exit 1 := by
    rcases h with h | h <;> subst h <;> rfl
  constructor
  · unfold provisionDigitalOceanDroplet
    rw [hv]
  · unfold destroyDigitalOceanDroplet
    rw [hv]

theorem C7_witness :
    provisionDigitalOceanDroplet none "test-1" doStubEnv = (.exited 1, []) := by
  exact (C7_token_gate none "test-1" (.num 555) doStubEnv (Or.inl rfl)).1

/-- C8: a DigitalOcean delete whose HTTP request fails at transport level
(the caught rejection leaves `response` undefined) issues exactly one
delete request, performs no retry, and completes silently as a no-op; the
surrounding command finishes normally without any error surfaced. -/
theorem C8_delete_transport_noop (n : Int) (env : DOEnv) (token : String)
    (hfail : env.deleteResponse = none) (htoken : ¬ token = "") :
    deleteDroplet (.num n) env = (.transportNoOp, [.deleteDropletCall n]) ∧
    destroyDigitalOceanDroplet (some token) (.num n) env =
      (.finished, [.deleteDropletCall n]) := by
  have h1 : deleteDroplet (.num n) env = (.transportNoOp, [.deleteDropletCall n]) := by
    unfold deleteDroplet
    rw [hfail]
  have hv : validateDigitalOceanToken (some token) = .ok token := by
    simp [validateDigitalOceanToken, htoken]
  refine ⟨h1, ?_⟩
  unfold destroyDigitalOceanDroplet
  rw [hv, h1]

theorem C8_witness :
    deleteDroplet (.num 555) doStubEnv = (.transportNoOp, [.deleteDropletCall 555]) := by
  exact (C8_delete_transport_noop 555 doStubEnv "token-abcd" rfl (by decide)).1

/-- C9: every AWS delete that completes successfully issues at least two
remote calls, all of them `TerminateInstances` for the given id: the call
before the poll loop plus one per poll attempt (the probe re-issues
`TerminateInstances` rather than a read-only describe). -/
theorem C9_terminate_called_twice (id : JSValue) (env : AWSEnv)
    (_h : (deleteInstance id env).1 = some ()) :
    2 ≤ (deleteInstance id env).2.length ∧
    ∀ c ∈ (deleteInstance id env).2, c = .terminateInstances id := by
  have htr : (deleteInstance id env).2 =
      .terminateInstances id ::
        List.replicate (awsTerminationPoll (terminationProbe env)).2
          (.terminateInstances id) := rfl
  have hpos : 1 ≤ (awsTerminationPoll (terminationProbe env)).2 :=
    retryRun_count_pos (terminationProbe env) 51 0 (by norm_num)
  constructor
  · rw [htr]
    simp only [List.length_cons, List.length_replicate]
    omega
  · intro c hc
    rw [htr] at hc
    rcases List.mem_cons.mp hc with hcase | hcase
    · exact hcase
    · exact List.eq_of_mem_replicate hcase

theorem C9_witness :
    2 ≤ (deleteInstance (.str "i-0abc") awsStubEnvTerm).2.length := by
  exact (C9_terminate_called_twice (.str "i-0abc") awsStubEnvTerm rfl).1

/-- C10: `AWSProvider.createInstance` never uses its `region` argument: two
calls that differ only in the region produce identical results and issue
identical remote calls (in particular identical `RunInstances`
parameters). -/
theorem C10_region_unused (name regionA regionB imageName sshKeyPairName : String)
    (env : AWSEnv) :
    createInstance name regionA imageName sshKeyPairName env =
      createInstance name regionB imageName sshKeyPairName env := rfl

end HW0
